import Mathlib

set_option autoImplicit false

namespace WfrmlsSpec

/-!
Shallow embedding of the `wfrmls` Python client library and its background
agent, covering the parts exercised by the verified properties below:

* `src/wfrmls/base_client.py`  — `BaseClient.__init__`, `BaseClient._handle_response`
* `src/wfrmls/properties.py`   — `PropertyClient.get_properties` parameter building,
  `get_properties_by_city`, `get_modified_properties`
* `src/wfrmls/media.py`        — `MediaClient.get_modified_media`
* `src/wfrmls/deleted.py`      — `DeletedClient.get_deleted_by_resource`,
  `DeletedClient.get_all_deleted_for_sync`
* `src/wfrmls/client.py`       — `WFRMLSClient` facade with lazy memoized resource clients
* `src/agent/scheduler.py`     — `ScheduledTask`, `TaskScheduler._execute_task`

JSON payloads are modelled by the inductive `JVal` (numbers as `Int`; no claim
depends on float payloads).  Machine-level HTTP is abstracted to a status code
plus a body classification (`RespBody`), matching exactly the three cases the
Python code distinguishes via `response.content` / `response.json()` raising
`ValueError`.
-/

/-- JSON value as decoded by `response.json()`.  Object fields keep insertion
order, mirroring Python dicts; keys are unique in real payloads. -/
inductive JVal where
  | jnull
  | jbool (b : Bool)
  | jnum (n : Int)
  | jstr (s : String)
  | jarr (elems : List JVal)
  | jobj (fields : List (String × JVal))

/-- The single-quote character, written via its code point so that filter
strings such as `City eq 'x'` can be built without a literal apostrophe. -/
def sq : String := (Char.ofNat 39).toString

mutual

/-- Python `repr` of a JSON-decoded value (scalars exact; string escaping of
special characters inside `repr` of a `str` is not modelled, no claim uses it). -/
def pyRepr : JVal → String
  | .jnull => "None"
  | .jbool b => if b then "True" else "False"
  | .jnum n => toString n
  | .jstr s => sq ++ s ++ sq
  | .jarr elems => "[" ++ pyReprElems elems ++ "]"
  | .jobj fields => "\x7b" ++ pyReprFields fields ++ "\x7d"

/-- Comma-joined reprs of list elements. -/
def pyReprElems : List JVal → String
  | [] => ""
  | [v] => pyRepr v
  | v :: rest => pyRepr v ++ ", " ++ pyReprElems rest

/-- Comma-joined reprs of dict entries. -/
def pyReprFields : List (String × JVal) → String
  | [] => ""
  | [(k, v)] => sq ++ k ++ sq ++ ": " ++ pyRepr v
  | (k, v) :: rest => sq ++ k ++ sq ++ ": " ++ pyRepr v ++ ", " ++ pyReprFields rest

end

/-- Python `str()` of a JSON-decoded value: the identity on strings, `repr`
otherwise (which is what `str` gives on `None`, booleans, ints, lists, dicts). -/
def pyStr : JVal → String
  | .jstr s => s
  | v => pyRepr v

/-- Python dict lookup on an association list (first binding wins; real dicts
have unique keys). -/
def dget {α β : Type} [DecidableEq α] : List (α × β) → α → Option β
  | [], _ => none
  | (k, v) :: rest, key => if k = key then some v else dget rest key

/-- Python dict assignment `d[k] = v`: replaces an existing binding in place,
otherwise appends a new binding at the end (dict insertion order). -/
def dinsert {α β : Type} [DecidableEq α] (k : α) (v : β) : List (α × β) → List (α × β)
  | [] => [(k, v)]
  | (k2, v2) :: rest => if k2 = k then (k, v) :: rest else (k2, v2) :: dinsert k v rest

/-- Classification of an HTTP response body as seen by `_handle_response`:
empty content, content that parses as JSON, or content that makes
`response.json()` raise `ValueError`. -/
inductive RespBody where
  | empty
  | json (v : JVal)
  | nonJson (text : String)

/-- The `response_data` computed at the top of `BaseClient._handle_response`:
`response.json() if response.content else {}`, with the `ValueError` handler
producing `{"message": response.text}`. -/
def parse_response_data : RespBody → JVal
  | .empty => .jobj []
  | .json v => v
  | .nonJson t => .jobj [("message", .jstr t)]

/-- The error taxonomy of `src/wfrmls/exceptions.py` (one flat hierarchy under
`WFRMLSError`; `generic` stands for the base class itself). -/
inductive ErrKind where
  | validation
  | authentication
  | notFound
  | rateLimit
  | server
  | network
  | generic
  deriving DecidableEq

/-- A raised `WFRMLSError` (or subclass): message plus the optional
`status_code` and `response_data` attributes set by the constructor. -/
structure WErr where
  kind : ErrKind
  message : String
  status_code : Option Nat
  response_data : Option JVal

/-- Bool test for one character list occurring contiguously inside another
(Python substring containment). -/
def chars_infix (needle : List Char) : List Char → Bool
  | [] => needle.isEmpty
  | c :: rest => List.isPrefixOf needle (c :: rest) || chars_infix needle rest

/-- Python `needle in hay` when `hay` is a `str`: substring containment. -/
def py_in_str (needle hay : String) : Bool :=
  chars_infix needle.toList hay.toList

/-- Python `needle in xs` when `xs` is a `list` of JSON-decoded values:
element equality, which for a string needle holds exactly on equal string
elements (a `str` never equals `None`, a bool, a number, a list or a dict). -/
def py_in_list (needle : String) (xs : List JVal) : Bool :=
  xs.any (fun v =>
    match v with
    | .jstr s => s == needle
    | _ => false)

/-- The nested helper `get_error_message(data, default)` inside
`_handle_response`, with the full Python semantics of `'message' in data` /
`data['message']` on an arbitrary JSON-decoded `data`:
* dict: key membership and lookup — `message` first, then `error.message`
  when `error` is a dict, else the default; found values go through `str()`;
* str: membership is a SUBSTRING test, and a hit makes the subsequent
  indexing `data['message']` (resp. `data['error']`) raise `TypeError`
  (string indices must be integers);
* list: membership is element equality, and a hit makes the integer-only
  indexing raise `TypeError`;
* `None` / number / boolean: the membership test itself raises `TypeError`
  (argument not iterable).
`Except.error ()` models the escaping `TypeError`. -/
def get_error_message (data : JVal) (default : String) : Except Unit String :=
  match data with
  | .jobj fields =>
    match dget fields "message" with
    | some v => .ok (pyStr v)
    | none =>
      match dget fields "error" with
      | some (.jobj efields) =>
        match dget efields "message" with
        | some v => .ok (pyStr v)
        | none => .ok default
      | some _ => .ok default
      | none => .ok default
  | .jstr s =>
    if py_in_str "message" s then .error ()
    else if py_in_str "error" s then .error ()
    else .ok default
  | .jarr xs =>
    if py_in_list "message" xs then .error ()
    else if py_in_list "error" xs then .error ()
    else .ok default
  | _ => .error ()

/-- An exception escaping `_handle_response`: either a typed `WFRMLSError`
subclass, or the uncaught `TypeError` raised inside `get_error_message` on a
non-dict body (the f-string argument is evaluated before the typed error is
constructed, so the `TypeError` propagates untyped). -/
inductive RaisedErr where
  | wfrmls (e : WErr)
  | typeError

/-- `BaseClient._handle_response`: returns the parsed payload on success and
the raised exception otherwise (`Except.error` models `raise`).  Each error
branch first evaluates `get_error_message` — inside the f-string — so a
`TypeError` raised there escapes in place of the typed error. -/
def handle_response (status : Nat) (body : RespBody) : Except RaisedErr JVal :=
  let response_data := parse_response_data body
  if status = 200 ∨ status = 201 then
    .ok response_data
  else if status = 204 then
    .ok (.jobj [])
  else if status = 400 then
    match get_error_message response_data "Invalid request" with
    | .ok m => .error (.wfrmls ⟨.validation, "Bad request: " ++ m,
        some 400, some response_data⟩)
    | .error _ => .error .typeError
  else if status = 401 then
    match get_error_message response_data "Invalid credentials" with
    | .ok m => .error (.wfrmls ⟨.authentication, "Authentication failed: " ++ m,
        some 401, some response_data⟩)
    | .error _ => .error .typeError
  else if status = 404 then
    match get_error_message response_data "Not found" with
    | .ok m => .error (.wfrmls ⟨.notFound, "Resource not found: " ++ m,
        some 404, some response_data⟩)
    | .error _ => .error .typeError
  else if status = 429 then
    match get_error_message response_data "Too many requests" with
    | .ok m => .error (.wfrmls ⟨.rateLimit, "Rate limit exceeded: " ++ m,
        some 429, some response_data⟩)
    | .error _ => .error .typeError
  else if 500 ≤ status ∧ status < 600 then
    match get_error_message response_data "Internal server error" with
    | .ok m => .error (.wfrmls ⟨.server, "Server error: " ++ m,
        some status, some response_data⟩)
    | .error _ => .error .typeError
  else
    match get_error_message response_data "Unknown error" with
    | .ok m => .error (.wfrmls ⟨.generic, "Unexpected error: " ++ m,
        some status, some response_data⟩)
    | .error _ => .error .typeError

/-- Value stored in the query-parameter dict built by the list methods:
`$top` / `$skip` hold Python ints, everything else strings. -/
inductive PValue where
  | pint (n : Int)
  | pstr (s : String)
  deriving DecidableEq

/-- A `Union[List[str], str]` argument (`select` / `expand`). -/
inductive ListOrStr where
  | strs (xs : List String)
  | str (s : String)

/-- Parameter dict built by `PropertyClient.get_properties` (the same block is
repeated verbatim in every resource client's list method), in dict insertion
order: `$top`, `$skip`, `$filter`, `$orderby`, `$count`, `$select`, `$expand`.
`$top` is `min(top, 200)`; `$count` serializes to `"true"`/`"false"`;
list-valued `select`/`expand` are comma-joined. -/
def get_properties_params (top skip : Option Int) (filter_query orderby : Option String)
    (count : Option Bool) (select expand2 : Option ListOrStr) : List (String × PValue) :=
  (match top with
    | some t => [("$top", PValue.pint (min t 200))]
    | none => [])
  ++ (match skip with
    | some sk => [("$skip", PValue.pint sk)]
    | none => [])
  ++ (match filter_query with
    | some f => [("$filter", PValue.pstr f)]
    | none => [])
  ++ (match orderby with
    | some o => [("$orderby", PValue.pstr o)]
    | none => [])
  ++ (match count with
    | some c => [("$count", PValue.pstr (if c then "true" else "false"))]
    | none => [])
  ++ (match select with
    | some (.strs xs) => [("$select", PValue.pstr (String.intercalate "," xs))]
    | some (.str s) => [("$select", PValue.pstr s)]
    | none => [])
  ++ (match expand2 with
    | some (.strs xs) => [("$expand", PValue.pstr (String.intercalate "," xs))]
    | some (.str s) => [("$expand", PValue.pstr s)]
    | none => [])

/-- Filter string built by `DeletedClient.get_deleted_by_resource`:
`ResourceName eq '<value>'`, AND-joined in front of a truthy caller-supplied
`filter_query` (Python `if existing_filter:` — the empty string counts as
absent). -/
def get_deleted_by_resource_filter (resource_value : String)
    (existing_filter : Option String) : String :=
  let filter_query := "ResourceName eq " ++ sq ++ resource_value ++ sq
  match existing_filter with
  | some f => if f = "" then filter_query else filter_query ++ " and " ++ f
  | none => filter_query

/-- Filter string built by `PropertyClient.get_properties_by_city`:
`City eq '<city>'`, AND-joined in front of a truthy caller-supplied
`filter_query`. -/
def get_properties_by_city_filter (city : String)
    (existing_filter : Option String) : String :=
  let city_filter := "City eq " ++ sq ++ city ++ sq
  match existing_filter with
  | some f => if f = "" then city_filter else city_filter ++ " and " ++ f
  | none => city_filter

/-- The `since` argument of the modified-since convenience methods.  The
constructors carry the value of Python `isoformat()`: `dateArg iso` is a pure
`date` (so `iso` has the form `YYYY-MM-DD`), `datetimeArg iso` a `datetime`
(full timestamp), `strArg` a pre-formatted string passed through. -/
inductive SinceArg where
  | dateArg (iso : String)
  | datetimeArg (iso : String)
  | strArg (s : String)

/-- Filter built by `PropertyClient.get_modified_properties`: the single
`isinstance(since, date)` test also catches `datetime` (a subclass), so both
serialize as `isoformat() + "Z"`; the result is interpolated UNQUOTED:
`ModificationTimestamp gt {since_str}`. -/
def get_modified_properties_filter (since : SinceArg) : String :=
  let since_str :=
    match since with
    | .dateArg iso => iso ++ "Z"
    | .datetimeArg iso => iso ++ "Z"
    | .strArg s => s
  "ModificationTimestamp gt " ++ since_str

/-- Filter built by `MediaClient.get_modified_media`: `datetime` is tested
first (`isoformat() + "Z"`), a pure `date` becomes `isoformat() + "T00:00:00Z"`,
and the result is interpolated inside single quotes:
`ModificationTimestamp gt '{since_str}'`. -/
def get_modified_media_filter (since : SinceArg) : String :=
  let since_str :=
    match since with
    | .datetimeArg iso => iso ++ "Z"
    | .dateArg iso => iso ++ "T00:00:00Z"
    | .strArg s => s
  "ModificationTimestamp gt " ++ sq ++ since_str ++ sq

/-- In-memory scheduled task of `src/agent/scheduler.py`.  Times are UTC
seconds modelled as `Int` (`datetime.utcnow()` values are passed in
explicitly). -/
structure ScheduledTask where
  name : String
  interval : Int
  enabled : Bool
  last_run : Option Int
  next_run : Int
  execution_count : Nat
  error_count : Nat
  deriving DecidableEq

/-- `ScheduledTask.__init__` at current time `now`: `last_run = None`,
`next_run = now + interval`, both counters zero. -/
def ScheduledTask.init (name : String) (interval : Int) (enabled : Bool)
    (now : Int) : ScheduledTask :=
  { name := name, interval := interval, enabled := enabled,
    last_run := none, next_run := now + interval,
    execution_count := 0, error_count := 0 }

/-- `ScheduledTask.is_due`: `self.enabled and datetime.utcnow() >= self.next_run`. -/
def ScheduledTask.is_due (t : ScheduledTask) (now : Int) : Bool :=
  t.enabled && decide (t.next_run ≤ now)

/-- `ScheduledTask.mark_executed` at current time `now`. -/
def ScheduledTask.mark_executed (t : ScheduledTask) (now : Int) : ScheduledTask :=
  { t with last_run := some now, next_run := now + t.interval,
           execution_count := t.execution_count + 1 }

/-- `ScheduledTask.mark_error`. -/
def ScheduledTask.mark_error (t : ScheduledTask) : ScheduledTask :=
  { t with error_count := t.error_count + 1 }

/-- `TaskScheduler._execute_task`: runs the task function (its outcome is the
`Except` argument — `ok` for normal return at time `now`, `error` for a raised
exception) and then calls `mark_executed` resp. `mark_error`; the exception is
logged, never re-raised. -/
def execute_task (t : ScheduledTask) (outcome : Except Unit Unit) (now : Int) :
    ScheduledTask :=
  match outcome with
  | .ok _ => t.mark_executed now
  | .error _ => t.mark_error

/-- `resource_results.get('value', [])` in the deletion-sync fan-out: the
`value` array of a response dict, or `[]` when absent (real responses carry an
array there). -/
def get_value_list (res : JVal) : List JVal :=
  match res with
  | .jobj fields =>
    match dget fields "value" with
    | some (.jarr xs) => xs
    | _ => []
  | _ => []

/-- Aggregate returned by `DeletedClient.get_all_deleted_for_sync` (the
`sync_info` sub-dict is inlined as the last three fields).  `requests_issued`
records, in order, the resource types for which `get_deleted_since` was
called — one sequential request per type. -/
structure SyncResult where
  value : List JVal
  by_resource : List (String × List JVal)
  total_deleted_records : Nat
  resource_types_checked : Nat
  resources_with_deletions : Nat
  requests_issued : List String

/-- The `for resource_type in resource_types` loop of
`get_all_deleted_for_sync`, with accumulators `all_results`, `by_resource`,
`total_count` and the request trace.  `fetch rt` is the outcome of
`self.get_deleted_since(since=…, resource_name=rt, …)`: `ok` with the response
dict, or `error` when the call raises; the `except Exception` arm records an
empty list for the failing type and continues. -/
def sync_loop (fetch : String → Except Unit JVal) :
    List String → List JVal → List (String × List JVal) → Nat → List String →
    List JVal × List (String × List JVal) × Nat × List String
  | [], all_results, by_resource, total_count, reqs =>
    (all_results, by_resource, total_count, reqs)
  | rt :: rest, all_results, by_resource, total_count, reqs =>
    match fetch rt with
    | .ok res =>
      let records := get_value_list res
      sync_loop fetch rest (all_results ++ records) (dinsert rt records by_resource)
        (total_count + records.length) (reqs ++ [rt])
    | .error _ =>
      sync_loop fetch rest all_results (dinsert rt [] by_resource) total_count
        (reqs ++ [rt])

/-- `DeletedClient.get_all_deleted_for_sync` over an explicit list of resource
type names (the enum/str normalization `resource_type.value` is applied by the
caller of this model). -/
def get_all_deleted_for_sync (fetch : String → Except Unit JVal)
    (resource_types : List String) : SyncResult :=
  let r := sync_loop fetch resource_types [] [] 0 []
  { value := r.1,
    by_resource := r.2.1,
    total_deleted_records := r.2.2.1,
    resource_types_checked := resource_types.length,
    resources_with_deletions := (r.2.1.filter (fun p => !p.2.isEmpty)).length,
    requests_issued := r.2.2.2 }

/-- Records contributed by one resource type to the fan-out aggregate: the
`value` list of a successful fetch, the empty list for a raising one. -/
def sync_entry (fetch : String → Except Unit JVal) (t : String) : List JVal :=
  match fetch t with
  | .ok res => get_value_list res
  | .error _ => []

/-- The combined `value` list of the fan-out: the concatenation of the fetched
record lists of the SUCCESSFUL resource types, in request order. -/
def sync_value_records (fetch : String → Except Unit JVal) (ts : List String) :
    List JVal :=
  (ts.filterMap (fun t =>
    match fetch t with
    | .ok res => some (get_value_list res)
    | .error _ => none)).flatten

/-- The `by_resource` dict of the fan-out, built by upserting each resource
type's entry in iteration order on top of `by0`. -/
def sync_by_resource (fetch : String → Except Unit JVal) :
    List String → List (String × List JVal) → List (String × List JVal)
  | [], by0 => by0
  | t :: rest, by0 => sync_by_resource fetch rest (dinsert t (sync_entry fetch t) by0)

/-- Concrete fetch oracle mirroring the spec's example scenario: the
`Property` request returns two records, the `Member` request raises a server
error. -/
def sync_fetch_example : String → Except Unit JVal := fun t =>
  if t = "Property" then .ok (.jobj [("value", .jarr [.jstr "p1", .jstr "p2"])])
  else .error ()

/-- Python `a or b` on `Optional[str]` values: `a` unless it is `None` or the
empty string. -/
def py_or_str (a b : Option String) : Option String :=
  match a with
  | some s => if s = "" then b else some s
  | none => b

/-- Default base URL of `BaseClient.__init__`. -/
def default_base_url : String := "https://resoapi.utahrealestate.com/reso/odata"

/-- Message of the `AuthenticationError` raised by `BaseClient.__init__`. -/
def auth_required_message : String :=
  "Bearer token is required. Set WFRMLS_BEARER_TOKEN environment variable or pass bearer_token parameter."

/-- State built by a successful `BaseClient.__init__`: resolved token, resolved
base URL, session headers.  `network_calls` traces outbound HTTP requests made
so far; the constructor only creates a local `requests.Session`, so it is
empty. -/
structure BaseClientState where
  bearer_token : String
  base_url : String
  headers : List (String × String)
  network_calls : List String
  deriving DecidableEq

/-- `BaseClient.__init__`: `bearer_token or os.getenv("WFRMLS_BEARER_TOKEN")`
(`env_token` is the environment variable's value), failing with
`AuthenticationError` when the result is falsy, before anything else happens. -/
def base_client_init (bearer_token env_token base_url : Option String) :
    Except WErr BaseClientState :=
  match py_or_str bearer_token env_token with
  | none => .error ⟨.authentication, auth_required_message, none, none⟩
  | some t =>
    if t = "" then .error ⟨.authentication, auth_required_message, none, none⟩
    else .ok
      { bearer_token := t,
        base_url := match py_or_str base_url (some default_base_url) with
          | some u => u
          | none => default_base_url,
        headers :=
          [("Authorization", "Bearer " ++ t),
           ("Content-Type", "application/json"),
           ("Accept", "application/json")],
        network_calls := [] }

/-- The ten lazily-created resource-client properties of `WFRMLSClient`. -/
inductive ResourceProp where
  | property
  | member
  | office
  | openhouse
  | data_system
  | resource
  | property_unit_types
  | lookup
  | adu
  | deleted
  deriving DecidableEq

/-- State of the `WFRMLSClient` facade.  The ten `self._property = None`, …
attributes are modelled as one keyed cache from `ResourceProp` to the identity
of the created resource-client instance (a fresh number from
`next_instance_id`); an absent key is a `None` attribute. -/
structure WFRMLSClientState where
  bearer_token : Option String
  base_url : Option String
  resource_cache : List (ResourceProp × Nat)
  base_client : Option Nat
  next_instance_id : Nat
  deriving DecidableEq

/-- `WFRMLSClient.__init__`: stores the token and URL untouched and sets every
service-client attribute to `None`.  It is a total function — no token
validation, no `BaseClient` construction, no network call. -/
def wfrmls_client_init (bearer_token base_url : Option String) : WFRMLSClientState :=
  { bearer_token := bearer_token, base_url := base_url,
    resource_cache := [], base_client := none, next_instance_id := 0 }

/-- A facade resource property getter (`WFRMLSClient.property`, `.member`, …):
returns the memoized instance if present, otherwise constructs the resource
client — whose `__init__` is exactly `BaseClient.__init__` via `super()` —
memoizes it and returns it.  The returned `Nat` is the instance's identity. -/
def access_resource (env_token : Option String) (r : ResourceProp)
    (st : WFRMLSClientState) : Except WErr (Nat × WFRMLSClientState) :=
  match dget st.resource_cache r with
  | some id => .ok (id, st)
  | none =>
    match base_client_init st.bearer_token env_token st.base_url with
    | .error e => .error e
    | .ok _ => .ok (st.next_instance_id,
        { st with resource_cache := dinsert r st.next_instance_id st.resource_cache,
                  next_instance_id := st.next_instance_id + 1 })

/-- C1 counterexample: a 400 response whose JSON body is the literal `null`
makes the membership test inside `get_error_message` raise an uncaught
`TypeError`, so `_handle_response` does NOT raise the claimed validation error
carrying the status code and parsed body; a JSON-string body containing the
word `message` crashes the same way at the subsequent indexing. -/
theorem handle_response_typeerror_counterexample :
    handle_response 400 (.json .jnull) = .error .typeError ∧
    handle_response 400 (.json (.jstr "an error message")) = .error .typeError ∧
    (RaisedErr.typeError ≠ .wfrmls ⟨.validation,
      "Bad request: " ++ "Invalid request", some 400, some .jnull⟩) :=
  ⟨rfl, rfl, by simp⟩

/-- C1 (amended): whenever `get_error_message` returns (in particular for
every JSON-object body — extraction never raises there — which includes the
empty-body and non-JSON wrappers), `_handle_response` raises the claimed typed
error: 400 the validation error, 401 the authentication error, 404 the
not-found error, 429 the rate-limit error, 5xx the server error, any other
non-success status the generic error, each carrying the response's status
code and parsed body, with the documented prefix followed by the extracted
message (top-level `message` field, then nested `error.message`, then the
caller-supplied default).  When the parsed body is not an object and the
extraction raises `TypeError` — on `null`, numbers, booleans, and
strings/arrays containing `message` or `error` — that `TypeError` escapes
`_handle_response` untyped instead of the typed error. -/
theorem handle_response_error_dispatch (status : Nat) (body : RespBody) :
    (∀ m, get_error_message (parse_response_data body) "Invalid request" = .ok m →
      status = 400 → handle_response status body =
        .error (.wfrmls ⟨.validation, "Bad request: " ++ m,
          some 400, some (parse_response_data body)⟩)) ∧
    (∀ m, get_error_message (parse_response_data body) "Invalid credentials" = .ok m →
      status = 401 → handle_response status body =
        .error (.wfrmls ⟨.authentication, "Authentication failed: " ++ m,
          some 401, some (parse_response_data body)⟩)) ∧
    (∀ m, get_error_message (parse_response_data body) "Not found" = .ok m →
      status = 404 → handle_response status body =
        .error (.wfrmls ⟨.notFound, "Resource not found: " ++ m,
          some 404, some (parse_response_data body)⟩)) ∧
    (∀ m, get_error_message (parse_response_data body) "Too many requests" = .ok m →
      status = 429 → handle_response status body =
        .error (.wfrmls ⟨.rateLimit, "Rate limit exceeded: " ++ m,
          some 429, some (parse_response_data body)⟩)) ∧
    (∀ m, get_error_message (parse_response_data body) "Internal server error" = .ok m →
      500 ≤ status → status < 600 → handle_response status body =
        .error (.wfrmls ⟨.server, "Server error: " ++ m,
          some status, some (parse_response_data body)⟩)) ∧
    (∀ m, get_error_message (parse_response_data body) "Unknown error" = .ok m →
      status ≠ 200 → status ≠ 201 → status ≠ 204 → status ≠ 400 → status ≠ 401 →
      status ≠ 404 → status ≠ 429 → ¬ (500 ≤ status ∧ status < 600) →
      handle_response status body =
        .error (.wfrmls ⟨.generic, "Unexpected error: " ++ m,
          some status, some (parse_response_data body)⟩)) ∧
    (∀ (fields : List (String × JVal)) (d : String),
      ∃ m, get_error_message (.jobj fields) d = .ok m) ∧
    (∀ (fields : List (String × JVal)) (v : JVal) (d : String),
      dget fields "message" = some v →
      get_error_message (.jobj fields) d = .ok (pyStr v)) ∧
    (∀ (fields efields : List (String × JVal)) (v : JVal) (d : String),
      dget fields "message" = none → dget fields "error" = some (.jobj efields) →
      dget efields "message" = some v →
      get_error_message (.jobj fields) d = .ok (pyStr v)) ∧
    (∀ (fields : List (String × JVal)) (d : String),
      dget fields "message" = none → dget fields "error" = none →
      get_error_message (.jobj fields) d = .ok d) ∧
    (get_error_message (parse_response_data body) "Invalid request" = .error () →
      status = 400 → handle_response status body = .error .typeError) ∧
    (get_error_message (parse_response_data body) "Invalid credentials" = .error () →
      status = 401 → handle_response status body = .error .typeError) ∧
    (get_error_message (parse_response_data body) "Not found" = .error () →
      status = 404 → handle_response status body = .error .typeError) ∧
    (get_error_message (parse_response_data body) "Too many requests" = .error () →
      status = 429 → handle_response status body = .error .typeError) ∧
    (get_error_message (parse_response_data body) "Internal server error" = .error () →
      500 ≤ status → status < 600 → handle_response status body = .error .typeError) ∧
    (get_error_message (parse_response_data body) "Unknown error" = .error () →
      status ≠ 200 → status ≠ 201 → status ≠ 204 → status ≠ 400 → status ≠ 401 →
      status ≠ 404 → status ≠ 429 → ¬ (500 ≤ status ∧ status < 600) →
      handle_response status body = .error .typeError) := by
  refine ⟨?_, ?_, ?_, ?_, ?_, ?_, ?_, ?_, ?_, ?_, ?_, ?_, ?_, ?_, ?_, ?_⟩
  · rintro m hm rfl
    simp [handle_response, hm]
  · rintro m hm rfl
    simp [handle_response, hm]
  · rintro m hm rfl
    simp [handle_response, hm]
  · rintro m hm rfl
    simp [handle_response, hm]
  · intro m hm h1 h2
    simp only [handle_response]
    rw [if_neg (by omega), if_neg (by omega), if_neg (by omega), if_neg (by omega),
      if_neg (by omega), if_neg (by omega), if_pos ⟨h1, h2⟩, hm]
  · intro m hm h200 h201 h204 h400 h401 h404 h429 h5xx
    simp only [handle_response]
    rw [if_neg (by omega), if_neg h204, if_neg h400, if_neg h401, if_neg h404,
      if_neg h429, if_neg h5xx, hm]
  · intro fields d
    simp only [get_error_message]
    repeat' split
    all_goals exact ⟨_, rfl⟩
  · intro fields v d h
    simp [get_error_message, h]
  · intro fields efields v d h1 h2 h3
    simp [get_error_message, h1, h2, h3]
  · intro fields d h1 h2
    simp [get_error_message, h1, h2]
  · rintro hm rfl
    simp [handle_response, hm]
  · rintro hm rfl
    simp [handle_response, hm]
  · rintro hm rfl
    simp [handle_response, hm]
  · rintro hm rfl
    simp [handle_response, hm]
  · intro hm h1 h2
    simp only [handle_response]
    rw [if_neg (by omega), if_neg (by omega), if_neg (by omega), if_neg (by omega),
      if_neg (by omega), if_neg (by omega), if_pos ⟨h1, h2⟩, hm]
  · intro hm h200 h201 h204 h400 h401 h404 h429 h5xx
    simp only [handle_response]
    rw [if_neg (by omega), if_neg h204, if_neg h400, if_neg h401, if_neg h404,
      if_neg h429, if_neg h5xx, hm]

/-- Closed instantiation of `handle_response_error_dispatch`: a 404 with a
top-level message, a 503 with an empty body, a 302 falling through to the
generic error, and a 401 whose numeric body makes the `TypeError` escape. -/
theorem handle_response_error_dispatch_witness :
    handle_response 404 (.json (.jobj [("message", .jstr "nope")])) =
      .error (.wfrmls ⟨.notFound, "Resource not found: nope", some 404,
        some (.jobj [("message", .jstr "nope")])⟩) ∧
    handle_response 503 .empty =
      .error (.wfrmls ⟨.server, "Server error: Internal server error", some 503,
        some (.jobj [])⟩) ∧
    handle_response 302 .empty =
      .error (.wfrmls ⟨.generic, "Unexpected error: Unknown error", some 302,
        some (.jobj [])⟩) ∧
    handle_response 401 (.json (.jnum 5)) = .error .typeError := by
  refine ⟨?_, ?_, ?_, ?_⟩
  · exact ((handle_response_error_dispatch 404
      (.json (.jobj [("message", .jstr "nope")]))).2.2.1 "nope" rfl rfl).trans rfl
  · exact ((handle_response_error_dispatch 503 .empty).2.2.2.2.1
      "Internal server error" rfl (by norm_num) (by norm_num)).trans rfl
  · exact ((handle_response_error_dispatch 302 .empty).2.2.2.2.2.1
      "Unknown error" rfl (by norm_num) (by norm_num) (by norm_num) (by norm_num)
      (by norm_num) (by norm_num) (by norm_num) (by omega)).trans rfl
  · exact (handle_response_error_dispatch 401
      (.json (.jnum 5))).2.2.2.2.2.2.2.2.2.2.2.1 rfl rfl

/-- C3: every success-status response returns a mapping and never raises: 204
yields the empty mapping, a 200/201 JSON body yields the parsed JSON (empty
body yields the empty mapping), and a non-JSON 200/201 body yields
`{"message": <raw body text>}`. -/
theorem handle_response_success_payloads (v : JVal) (t : String) (body : RespBody) :
    handle_response 200 (.json v) = .ok v ∧
    handle_response 201 (.json v) = .ok v ∧
    handle_response 200 .empty = .ok (.jobj []) ∧
    handle_response 201 .empty = .ok (.jobj []) ∧
    handle_response 200 (.nonJson t) = .ok (.jobj [("message", .jstr t)]) ∧
    handle_response 201 (.nonJson t) = .ok (.jobj [("message", .jstr t)]) ∧
    handle_response 204 body = .ok (.jobj []) :=
  ⟨rfl, rfl, rfl, rfl, rfl, rfl, rfl⟩

/-- C6: a task constructed at time `T` with interval `I` is due exactly when it
is enabled and the current time is at or past `T + I`; a successful execution
at time `E` sets `last_run = E`, `next_run = E + I` and bumps
`execution_count` by one. -/
theorem scheduled_task_due_and_execution (name : String) (interval T now E : Int)
    (enabled : Bool) :
    ((ScheduledTask.init name interval enabled T).is_due now = true ↔
      enabled = true ∧ T + interval ≤ now) ∧
    execute_task (ScheduledTask.init name interval enabled T) (.ok ()) E =
      (ScheduledTask.init name interval enabled T).mark_executed E ∧
    ((ScheduledTask.init name interval enabled T).mark_executed E).last_run = some E ∧
    ((ScheduledTask.init name interval enabled T).mark_executed E).next_run = E + interval ∧
    ((ScheduledTask.init name interval enabled T).mark_executed E).execution_count =
      (ScheduledTask.init name interval enabled T).execution_count + 1 := by
  refine ⟨?_, rfl, rfl, rfl, rfl⟩
  simp [ScheduledTask.init, ScheduledTask.is_due]

/-- C10: a task whose function raises gets only `error_count` incremented;
`last_run`, `next_run`, `execution_count` and `enabled` are untouched, so the
task stays due whenever it was due. -/
theorem execute_task_error_frame (t : ScheduledTask) (now : Int) :
    (execute_task t (.error ()) now).last_run = t.last_run ∧
    (execute_task t (.error ()) now).next_run = t.next_run ∧
    (execute_task t (.error ()) now).execution_count = t.execution_count ∧
    (execute_task t (.error ()) now).enabled = t.enabled ∧
    (execute_task t (.error ()) now).error_count = t.error_count + 1 ∧
    ∀ now2 : Int, (execute_task t (.error ()) now).is_due now2 = t.is_due now2 :=
  ⟨rfl, rfl, rfl, rfl, rfl, fun _ => rfl⟩

/-- C2: the `$top` entry of the parameter dict built by `get_properties` is
exactly 200 whenever the caller passes `top > 200`, is `top` unchanged for
`top ≤ 200`, and is absent when `top` is omitted — whatever the other
arguments are. -/
theorem get_properties_top_clamped (top : Int) (skip : Option Int)
    (filter_query orderby : Option String) (count : Option Bool)
    (select expand2 : Option ListOrStr) :
    (200 < top →
      dget (get_properties_params (some top) skip filter_query orderby count select expand2)
        "$top" = some (.pint 200)) ∧
    (top ≤ 200 →
      dget (get_properties_params (some top) skip filter_query orderby count select expand2)
        "$top" = some (.pint top)) ∧
    dget (get_properties_params none skip filter_query orderby count select expand2)
      "$top" = none := by
  refine ⟨?_, ?_, ?_⟩
  · intro h
    simp [get_properties_params, dget, min_eq_right (by omega : (200 : Int) ≤ top)]
  · intro h
    simp [get_properties_params, dget, min_eq_left h]
  · rcases skip with _ | sk <;> rcases filter_query with _ | f <;>
      rcases orderby with _ | o <;> rcases count with _ | c <;>
      rcases select with _ | xs | s1 <;> rcases expand2 with _ | ys | s2 <;>
      simp [get_properties_params, dget]

/-- Closed instantiation of `get_properties_top_clamped` at `top = 500`
(clamped to 200) and `top = 10` (kept). -/
theorem get_properties_top_clamped_witness :
    ((200 : Int) < 500 ∧
      dget (get_properties_params (some 500) none none none none none none)
        "$top" = some (.pint 200)) ∧
    ((10 : Int) ≤ 200 ∧
      dget (get_properties_params (some 10) none none none none none none)
        "$top" = some (.pint 10)) :=
  ⟨⟨by norm_num,
    (get_properties_top_clamped 500 none none none none none none).1 (by norm_num)⟩,
   ⟨by norm_num,
    (get_properties_top_clamped 10 none none none none none none).2.1 (by norm_num)⟩⟩

/-- C4: a convenience-filter method called with a caller-supplied
`filter_query` emits the convenience clause, then the literal `" and "`, then
the caller's filter — convenience clause first, no parenthesization; with no
caller filter it emits the convenience clause alone. -/
theorem convenience_filter_and_composition (resource_value city f : String)
    (h : f ≠ "") :
    get_deleted_by_resource_filter resource_value (some f) =
      ("ResourceName eq " ++ sq ++ resource_value ++ sq) ++ " and " ++ f ∧
    get_properties_by_city_filter city (some f) =
      ("City eq " ++ sq ++ city ++ sq) ++ " and " ++ f ∧
    get_deleted_by_resource_filter resource_value none =
      "ResourceName eq " ++ sq ++ resource_value ++ sq ∧
    get_properties_by_city_filter city none =
      "City eq " ++ sq ++ city ++ sq := by
  refine ⟨?_, ?_, rfl, rfl⟩
  · simp [get_deleted_by_resource_filter, h]
  · simp [get_properties_by_city_filter, h]

/-- Closed instantiation of `convenience_filter_and_composition` at the spec's
example filter `X eq 1`. -/
theorem convenience_filter_and_composition_witness :
    ("X eq 1" : String) ≠ "" ∧
    get_deleted_by_resource_filter "Property" (some "X eq 1") =
      ("ResourceName eq " ++ sq ++ "Property" ++ sq) ++ " and " ++ "X eq 1" ∧
    get_properties_by_city_filter "Provo" (some "X eq 1") =
      ("City eq " ++ sq ++ "Provo" ++ sq) ++ " and " ++ "X eq 1" :=
  ⟨by decide,
   (convenience_filter_and_composition "Property" "Provo" "X eq 1" (by decide)).1,
   (convenience_filter_and_composition "Property" "Provo" "X eq 1" (by decide)).2.1⟩

/-- C5 counterexample: `get_modified_properties` does NOT single-quote the
timestamp.  For the date `2024-01-15` it emits
`ModificationTimestamp gt 2024-01-15Z`, which differs from the claimed quoted
form and contains no single-quote character at all (code point 39). -/
theorem get_modified_properties_filter_unquoted :
    get_modified_properties_filter (.dateArg "2024-01-15") =
      "ModificationTimestamp gt 2024-01-15Z" ∧
    get_modified_properties_filter (.dateArg "2024-01-15") ≠
      "ModificationTimestamp gt " ++ sq ++ "2024-01-15Z" ++ sq ∧
    ("ModificationTimestamp gt 2024-01-15Z").toList.contains (Char.ofNat 39) = false :=
  ⟨rfl, by decide, by decide⟩

/-- C5 (amended): `get_modified_media` serializes modification-timestamp
filters as `ModificationTimestamp gt '<ISO-8601>Z'` (single-quoted, trailing
`Z`, with `T00:00:00` appended to bare dates), while `get_modified_properties`
emits the clause unquoted — `ModificationTimestamp gt <ISO-8601>Z` for
date/datetime inputs and the raw string verbatim for string inputs. -/
theorem modified_filter_serialization (iso s : String) :
    get_modified_media_filter (.datetimeArg iso) =
      "ModificationTimestamp gt " ++ sq ++ (iso ++ "Z") ++ sq ∧
    get_modified_media_filter (.dateArg iso) =
      "ModificationTimestamp gt " ++ sq ++ (iso ++ "T00:00:00Z") ++ sq ∧
    get_modified_media_filter (.strArg s) =
      "ModificationTimestamp gt " ++ sq ++ s ++ sq ∧
    get_modified_properties_filter (.dateArg iso) =
      "ModificationTimestamp gt " ++ (iso ++ "Z") ∧
    get_modified_properties_filter (.datetimeArg iso) =
      "ModificationTimestamp gt " ++ (iso ++ "Z") ∧
    get_modified_properties_filter (.strArg s) =
      "ModificationTimestamp gt " ++ s :=
  ⟨rfl, rfl, rfl, rfl, rfl, rfl⟩

/-- Looking up the key just upserted by `dinsert` yields the new value. -/
theorem dget_dinsert_self {α β : Type} [DecidableEq α] (k : α) (v : β)
    (l : List (α × β)) : dget (dinsert k v l) k = some v := by
  induction l with
  | nil => simp [dinsert, dget]
  | cons p rest ih =>
    obtain ⟨k2, v2⟩ := p
    by_cases h : k2 = k
    · simp [dinsert, dget, h]
    · simp [dinsert, dget, h, ih]

/-- Upserting a different key leaves a lookup unchanged. -/
theorem dget_dinsert_ne {α β : Type} [DecidableEq α] (k k2 : α) (v : β)
    (l : List (α × β)) (h : k2 ≠ k) : dget (dinsert k2 v l) k = dget l k := by
  induction l with
  | nil => simp [dinsert, dget, h]
  | cons p rest ih =>
    obtain ⟨k3, v3⟩ := p
    by_cases h3 : k3 = k2
    · subst h3
      simp [dinsert, dget, h]
    · simp only [dinsert, if_neg h3]
      by_cases h4 : k3 = k
      · simp [dget, h4]
      · simp [dget, h4, ih]

/-- C8: constructing the base client with no token argument and no
`WFRMLS_BEARER_TOKEN` environment value raises the authentication error
immediately — the constructor performs no network call in any case
(`network_calls = []`), and a token from either source makes construction
succeed. -/
theorem base_client_fail_fast_auth (tok : String) (u : Option String)
    (h : tok ≠ "") :
    base_client_init none none u =
      .error ⟨.authentication, auth_required_message, none, none⟩ ∧
    base_client_init (some tok) none u = .ok
      { bearer_token := tok,
        base_url := match py_or_str u (some default_base_url) with
          | some v => v
          | none => default_base_url,
        headers := [("Authorization", "Bearer " ++ tok),
          ("Content-Type", "application/json"),
          ("Accept", "application/json")],
        network_calls := [] } ∧
    base_client_init none (some tok) u = .ok
      { bearer_token := tok,
        base_url := match py_or_str u (some default_base_url) with
          | some v => v
          | none => default_base_url,
        headers := [("Authorization", "Bearer " ++ tok),
          ("Content-Type", "application/json"),
          ("Accept", "application/json")],
        network_calls := [] } := by
  refine ⟨rfl, ?_, ?_⟩ <;> simp [base_client_init, py_or_str, h]

/-- Closed instantiation of `base_client_fail_fast_auth` at the token
`token123` with the default base URL. -/
theorem base_client_fail_fast_auth_witness :
    ("token123" : String) ≠ "" ∧
    base_client_init none none none =
      .error ⟨.authentication, auth_required_message, none, none⟩ ∧
    base_client_init (some "token123") none none = .ok
      { bearer_token := "token123", base_url := default_base_url,
        headers := [("Authorization", "Bearer " ++ "token123"),
          ("Content-Type", "application/json"),
          ("Accept", "application/json")],
        network_calls := [] } :=
  ⟨by decide,
   (base_client_fail_fast_auth "token123" none (by decide)).1,
   ((base_client_fail_fast_auth "token123" none (by decide)).2.1).trans rfl⟩

/-- C9: accessing a facade resource property twice returns the identical
resource-client instance — a successful first access yields a state from which
the second access returns the very same instance and state — and constructing
the facade is a total function that touches no token and builds no client:
every cached attribute starts out `None`. -/
theorem facade_lazy_memoization (b u env : Option String) (r : ResourceProp)
    (st st1 : WFRMLSClientState) (id : Nat)
    (h : access_resource env r st = .ok (id, st1)) :
    access_resource env r st1 = .ok (id, st1) ∧
    wfrmls_client_init b u =
      { bearer_token := b, base_url := u, resource_cache := [],
        base_client := none, next_instance_id := 0 } := by
  refine ⟨?_, rfl⟩
  unfold access_resource at h ⊢
  cases hc : dget st.resource_cache r with
  | some id0 =>
    simp only [hc, Except.ok.injEq, Prod.mk.injEq] at h
    obtain ⟨h1, h2⟩ := h
    subst h1
    subst h2
    simp [hc]
  | none =>
    simp only [hc] at h
    cases hb : base_client_init st.bearer_token env st.base_url with
    | error e => simp [hb] at h
    | ok c =>
      simp only [hb, Except.ok.injEq, Prod.mk.injEq] at h
      obtain ⟨h1, h2⟩ := h
      subst h2
      simp [dget_dinsert_self, h1]

/-- Closed instantiation of `facade_lazy_memoization`: on a fresh facade with
token `tok`, the first `property` access creates instance 0 and the second
access returns instance 0 with the state unchanged. -/
theorem facade_lazy_memoization_witness :
    access_resource none .property (wfrmls_client_init (some "tok") none) =
      .ok (0, { bearer_token := some "tok", base_url := none,
                resource_cache := [(.property, 0)], base_client := none,
                next_instance_id := 1 }) ∧
    access_resource none .property
      { bearer_token := some "tok", base_url := none,
        resource_cache := [(.property, 0)], base_client := none,
        next_instance_id := 1 } =
      .ok (0, { bearer_token := some "tok", base_url := none,
                resource_cache := [(.property, 0)], base_client := none,
                next_instance_id := 1 }) :=
  ⟨rfl,
   (facade_lazy_memoization (some "tok") none none .property
     (wfrmls_client_init (some "tok") none)
     { bearer_token := some "tok", base_url := none,
       resource_cache := [(.property, 0)], base_client := none,
       next_instance_id := 1 } 0 rfl).1⟩

/-- The fan-out loop in closed form: it appends the successful types' records
to the accumulator, upserts every type's entry into the dict, adds the
successful record count, and issues exactly one request per type in order. -/
theorem sync_loop_spec (fetch : String → Except Unit JVal) (ts : List String)
    (acc : List JVal) (by0 : List (String × List JVal)) (total : Nat)
    (reqs : List String) :
    sync_loop fetch ts acc by0 total reqs =
      (acc ++ sync_value_records fetch ts,
       sync_by_resource fetch ts by0,
       total + (sync_value_records fetch ts).length,
       reqs ++ ts) := by
  induction ts generalizing acc by0 total reqs with
  | nil => simp [sync_loop, sync_value_records, sync_by_resource]
  | cons t rest ih =>
    cases hf : fetch t with
    | ok res =>
      simp only [sync_loop, hf]
      rw [ih]
      simp [sync_value_records, sync_by_resource, sync_entry, hf,
        List.filterMap_cons, List.append_assoc, List.length_append, Nat.add_assoc]
    | error e =>
      simp only [sync_loop, hf]
      rw [ih]
      simp [sync_value_records, sync_by_resource, sync_entry, hf,
        List.filterMap_cons]

/-- A type never iterated over keeps its prior `by_resource` binding. -/
theorem dget_sync_by_resource_of_not_mem (fetch : String → Except Unit JVal)
    (ts : List String) (by0 : List (String × List JVal)) (t : String)
    (h : t ∉ ts) : dget (sync_by_resource fetch ts by0) t = dget by0 t := by
  induction ts generalizing by0 with
  | nil => simp [sync_by_resource]
  | cons t2 rest ih =>
    simp only [List.mem_cons, not_or] at h
    obtain ⟨h1, h2⟩ := h
    simp only [sync_by_resource]
    rw [ih _ h2, dget_dinsert_ne _ _ _ _ (fun he => h1 he.symm)]

/-- With distinct types, each iterated type's `by_resource` binding is its own
contribution. -/
theorem dget_sync_by_resource_of_mem (fetch : String → Except Unit JVal)
    (ts : List String) (by0 : List (String × List JVal)) (t : String)
    (hmem : t ∈ ts) (hnd : ts.Nodup) :
    dget (sync_by_resource fetch ts by0) t = some (sync_entry fetch t) := by
  induction ts generalizing by0 with
  | nil => cases hmem
  | cons t2 rest ih =>
    rcases List.mem_cons.mp hmem with h | h
    · subst h
      have hnin : t ∉ rest := (List.nodup_cons.mp hnd).1
      simp only [sync_by_resource]
      rw [dget_sync_by_resource_of_not_mem fetch rest _ t hnin, dget_dinsert_self]
    · exact ih _ h ((List.nodup_cons.mp hnd).2)

/-- C7: the deletion-sync fan-out over distinct resource types issues one
request per type in order and never raises; a raising type gets an empty
`by_resource` entry, a successful type gets its fetched records, and the
combined `value` list and `total_deleted_records` count cover exactly the
successful types. -/
theorem get_all_deleted_for_sync_partial (fetch : String → Except Unit JVal)
    (resource_types : List String) (hnd : resource_types.Nodup) :
    (get_all_deleted_for_sync fetch resource_types).requests_issued =
      resource_types ∧
    (∀ t, t ∈ resource_types → fetch t = .error () →
      dget (get_all_deleted_for_sync fetch resource_types).by_resource t =
        some []) ∧
    (∀ t res, t ∈ resource_types → fetch t = .ok res →
      dget (get_all_deleted_for_sync fetch resource_types).by_resource t =
        some (get_value_list res)) ∧
    (get_all_deleted_for_sync fetch resource_types).value =
      (resource_types.filterMap (fun t =>
        match fetch t with
        | .ok res => some (get_value_list res)
        | .error _ => none)).flatten ∧
    (get_all_deleted_for_sync fetch resource_types).total_deleted_records =
      (get_all_deleted_for_sync fetch resource_types).value.length ∧
    (get_all_deleted_for_sync fetch resource_types).resource_types_checked =
      resource_types.length := by
  have hspec := sync_loop_spec fetch resource_types [] [] 0 []
  refine ⟨?_, ?_, ?_, ?_, ?_, rfl⟩
  · simp [get_all_deleted_for_sync, hspec]
  · intro t ht hf
    have := dget_sync_by_resource_of_mem fetch resource_types [] t ht hnd
    simp only [get_all_deleted_for_sync, hspec]
    rw [this]
    simp [sync_entry, hf]
  · intro t res ht hf
    have := dget_sync_by_resource_of_mem fetch resource_types [] t ht hnd
    simp only [get_all_deleted_for_sync, hspec]
    rw [this]
    simp [sync_entry, hf]
  · simp [get_all_deleted_for_sync, hspec, sync_value_records]
  · simp [get_all_deleted_for_sync, hspec]

/-- Closed instantiation of `get_all_deleted_for_sync_partial` at the spec's
example: over `[Property, Member]` with the `Member` request raising,
`by_resource` still holds Property's two records, Member's entry is the empty
list, and the combined list and count cover only Property. -/
theorem get_all_deleted_for_sync_partial_witness :
    (["Property", "Member"] : List String).Nodup ∧
    dget (get_all_deleted_for_sync sync_fetch_example
      ["Property", "Member"]).by_resource "Member" = some [] ∧
    dget (get_all_deleted_for_sync sync_fetch_example
      ["Property", "Member"]).by_resource "Property" =
        some [.jstr "p1", .jstr "p2"] ∧
    (get_all_deleted_for_sync sync_fetch_example ["Property", "Member"]).value =
      [.jstr "p1", .jstr "p2"] ∧
    (get_all_deleted_for_sync sync_fetch_example
      ["Property", "Member"]).total_deleted_records = 2 ∧
    (get_all_deleted_for_sync sync_fetch_example
      ["Property", "Member"]).requests_issued = ["Property", "Member"] := by
  have h := get_all_deleted_for_sync_partial sync_fetch_example
    ["Property", "Member"] (by decide)
  refine ⟨by decide, ?_, ?_, ?_, ?_, h.1⟩
  · exact h.2.1 "Member" (by simp) rfl
  · exact (h.2.2.1 "Property"
      (.jobj [("value", .jarr [.jstr "p1", .jstr "p2"])]) (by simp) rfl).trans rfl
  · exact (h.2.2.2.1).trans rfl
  · exact (h.2.2.2.2.1).trans rfl

end WfrmlsSpec
